import Mathlib

/-!
Verification of the window/session state machine of MIDIVisualizer's
host shell (`src/main.cpp`).  The GLFW windowing backend is modelled as an
explicit adapter state together with a `Backend` of clamping functions: a
backend may apply any transformation to a requested position or size
(real displays clamp oversized requests), and the faithful backend is the
one whose clamping functions are identities.  `performAction`,
`mainLoop` and the startup sequence are shallow embeddings of the
corresponding code in `main.cpp`.
-/

/-- Window frame, mirroring the `glm::ivec4 frame` of `main.cpp`:
`x = frame[0]`, `y = frame[1]`, `w = frame[2]`, `h = frame[3]`. -/
structure Frame where
  x : Int
  y : Int
  w : Int
  h : Int
deriving Repr, DecidableEq

/-- The tag of a `SystemAction`, mirroring the variants dispatched in
`performAction` (`main.cpp:47-91`); `NONE` stands for any tag reaching
the `default` branch. -/
inductive SystemActionType
| FULLSCREEN
| RESIZE
| FIX_SIZE
| FREE_SIZE
| QUIT
| NONE
deriving Repr, DecidableEq

/-- A system action as consumed by `performAction`: a tag plus the two
integer payload slots `action.data[0]`, `action.data[1]` (used only by
`RESIZE`). -/
structure SystemAction where
  type : SystemActionType
  data : Int × Int
deriving Repr, DecidableEq

/-- Observable state of the GLFW window/backend as far as `main.cpp`
interacts with it: monitor binding (fullscreen), reported position and
size, the resizable attribute, the swap interval, the close flag, and the
primary monitor's video mode. -/
structure Adapter where
  fullscreen : Bool
  posX : Int
  posY : Int
  sizeW : Int
  sizeH : Int
  resizable : Bool
  swapInterval : Int
  shouldClose : Bool
  modeW : Int
  modeH : Int
  modeRefresh : Int
deriving Repr, DecidableEq

/-- Backend clamping behaviour: what position and size the backend
actually applies when asked for a given position and size.  A display
smaller than a request yields a clamping backend; the identity backend
reports exactly what was asked. -/
structure Backend where
  clampPosX : Int → Int → Int
  clampPosY : Int → Int → Int
  clampSizeW : Int → Int → Int
  clampSizeH : Int → Int → Int

/-- Model of `glfwSetWindowSize`: the backend applies its clamp to the
requested size; the position is untouched. -/
def glfwSetWindowSize (bk : Backend) (a : Adapter) (w h : Int) : Adapter :=
  { a with sizeW := bk.clampSizeW w h, sizeH := bk.clampSizeH w h }

/-- Model of `glfwSetWindowMonitor(window, nullptr, x, y, w, h, 0)`:
leave fullscreen and move/resize the window, subject to backend
clamping. -/
def glfwSetWindowMonitorNull (bk : Backend) (a : Adapter) (x y w h : Int) : Adapter :=
  { a with fullscreen := false,
           posX := bk.clampPosX x y, posY := bk.clampPosY x y,
           sizeW := bk.clampSizeW w h, sizeH := bk.clampSizeH w h }

/-- Model of `glfwSetWindowMonitor(window, monitor, 0, 0, mode->width,
mode->height, mode->refreshRate)`: bind to the primary monitor at its
native video mode; the window then reports the mode's geometry. -/
def glfwSetWindowMonitorPrimary (a : Adapter) : Adapter :=
  { a with fullscreen := true, posX := 0, posY := 0,
           sizeW := a.modeW, sizeH := a.modeH }

/-- Model of `glfwSwapInterval`. -/
def glfwSwapInterval (a : Adapter) (n : Int) : Adapter :=
  { a with swapInterval := n }

/-- Model of `glfwSetWindowAttrib(window, GLFW_RESIZABLE, b)`. -/
def glfwSetWindowAttribResizable (a : Adapter) (b : Bool) : Adapter :=
  { a with resizable := b }

/-- Model of `glfwSetWindowShouldClose(window, GLFW_TRUE)`. -/
def glfwSetWindowShouldClose (a : Adapter) : Adapter :=
  { a with shouldClose := true }

/-- The pair `glfwGetWindowPos` / `glfwGetWindowSize` read into the four
components of the frame (`main.cpp:55-56`, `59-60`, `74-75`,
`197-198`). -/
def readFrame (a : Adapter) : Frame :=
  ⟨a.posX, a.posY, a.sizeW, a.sizeH⟩

/-- Shallow embedding of `performAction` (`main.cpp:46-92`).  Returns the
adapter and frame after the action; the `QUIT` case falls through to
`default` in the source, which only breaks. -/
def performAction (bk : Backend) (action : SystemAction) (a : Adapter) (frame : Frame) :
    Adapter × Frame :=
  match action.type with
  | SystemActionType.FULLSCREEN =>
    if a.fullscreen then
      let a1 := glfwSetWindowMonitorNull bk a frame.x frame.y frame.w frame.h
      let frame1 := readFrame a1
      (glfwSwapInterval a1 1, frame1)
    else
      let frame1 := readFrame a
      let a1 := glfwSetWindowMonitorPrimary a
      (glfwSwapInterval a1 1, frame1)
  | SystemActionType.RESIZE =>
    let a1 := glfwSetWindowSize bk a action.data.1 action.data.2
    let frame1 := readFrame a1
    (a1, frame1)
  | SystemActionType.FIX_SIZE =>
    (glfwSwapInterval (glfwSetWindowAttribResizable a false) 0, frame)
  | SystemActionType.FREE_SIZE =>
    (glfwSwapInterval (glfwSetWindowAttribResizable a true) 1, frame)
  | SystemActionType.QUIT =>
    (glfwSetWindowShouldClose a, frame)
  | SystemActionType.NONE =>
    (a, frame)

/-- Apply a sequence of session actions in order, threading the adapter
and the frame, as successive loop iterations of `main.cpp` would. -/
def applySeq (bk : Backend) : List SystemAction → Adapter × Frame → Adapter × Frame
  | [], st => st
  | act :: rest, st => applySeq bk rest (performAction bk act st.1 st.2)

/-- The identity (faithful) backend: it reports exactly the geometry it
was asked to set. -/
def idBackend : Backend :=
  ⟨fun x _ => x, fun _ y => y, fun w _ => w, fun _ h => h⟩

/-- A backend is faithful when it reports exactly the geometry it was
asked to set. -/
def FaithfulBackend (bk : Backend) : Prop :=
  (∀ x y, bk.clampPosX x y = x) ∧ (∀ x y, bk.clampPosY x y = y) ∧
  (∀ w h, bk.clampSizeW w h = w) ∧ (∀ w h, bk.clampSizeH w h = h)

theorem idBackend_faithful : FaithfulBackend idBackend :=
  ⟨fun _ _ => rfl, fun _ _ => rfl, fun _ _ => rfl, fun _ _ => rfl⟩

/-- Observable events of one iteration of the display loop
(`main.cpp:222-242`): the renderer's draw, the dispatch of the returned
action, interface rendering, buffer presentation, event polling. -/
inductive Ev
| draw
| applyAct
| uiRender
| swap
| poll
deriving Repr, DecidableEq

/-- The event trace of a single loop iteration, in the order of the loop
body of `main.cpp:222-242`: `renderer.draw`, `performAction`,
`ImGui::Render`/`RenderDrawData`, `glfwSwapBuffers`,
`glfwPollEvents`. -/
def tickTrace : List Ev :=
  [Ev.draw, Ev.applyAct, Ev.uiRender, Ev.swap, Ev.poll]

/-- Shallow embedding of the display loop (`main.cpp:222-242`).  The
script lists the actions the renderer's `draw` returns on successive
ticks; the loop checks `glfwWindowShouldClose` at the top of each
iteration and otherwise draws, applies the action, renders the
interface, swaps buffers and polls events.  Returns the emitted event
trace together with the final adapter and frame. -/
def mainLoop (bk : Backend) : List SystemAction → Adapter → Frame → List Ev × Adapter × Frame
  | [], a, f => ([], a, f)
  | act :: rest, a, f =>
    if a.shouldClose then ([], a, f)
    else
      let st := performAction bk act a f
      let r := mainLoop bk rest st.1 st.2
      (tickTrace ++ r.1, r.2)

/-- Outcome flags of the startup sequence of `main` (`main.cpp:96-152`),
in the order the code tests them. -/
structure StartupFlags where
  glfwInitOk : Bool
  showHelp : Bool
  showVersion : Bool
  windowCreated : Bool
  gl3wInitFailed : Bool
  gl32Supported : Bool
deriving Repr, DecidableEq

/-- Shallow embedding of the startup control flow of `main`
(`main.cpp:101-152` and the final `return 0` at `main.cpp:255`): the
process exit code paired with whether the display loop is reached. -/
def mainStartup (fl : StartupFlags) : Int × Bool :=
  if !fl.glfwInitOk then (2, false)
  else if fl.showHelp then (0, false)
  else if fl.showVersion then (0, false)
  else if !fl.windowCreated then (2, false)
  else if fl.gl3wInitFailed then (-1, false)
  else if !fl.gl32Supported then (-1, false)
  else (0, true)

/-- Result of running the session body of `main` (`main.cpp:196-255`):
the loop's event trace, the final adapter and frame, and whether
`renderer.clean()`, `glfwDestroyWindow` and `glfwTerminate` ran. -/
structure SessionResult where
  trace : List Ev
  adapter : Adapter
  frame : Frame
  cleanRan : Bool
  windowDestroyed : Bool
  glfwTerminated : Bool
deriving Repr, DecidableEq

/-- Shallow embedding of `main` after context setup (`main.cpp:196-255`):
read the initial frame from the adapter, on direct-export failure apply
`QUIT` (`main.cpp:209-215`), on `config.fullscreen` apply `FULLSCREEN`
(`main.cpp:217-219`), run the display loop on the renderer's action
script, then unconditionally clean up. -/
def runSession (bk : Backend) (a0 : Adapter) (directRecord recordOk cfgFullscreen : Bool)
    (script : List SystemAction) : SessionResult :=
  let f0 := readFrame a0
  let st1 :=
    if directRecord && !recordOk then
      performAction bk ⟨SystemActionType.QUIT, (0, 0)⟩ a0 f0
    else (a0, f0)
  let st2 :=
    if cfgFullscreen then
      performAction bk ⟨SystemActionType.FULLSCREEN, (0, 0)⟩ st1.1 st1.2
    else st1
  let r := mainLoop bk script st2.1 st2.2
  ⟨r.1, r.2.1, r.2.2, true, true, true⟩

/-- A fullscreen-toggle action (the payload slots are unused by this
variant). -/
def fsAct : SystemAction := ⟨SystemActionType.FULLSCREEN, (0, 0)⟩

/-- A no-op action. -/
def noneAct : SystemAction := ⟨SystemActionType.NONE, (0, 0)⟩

/-- A quit action, as built by `SystemAction::QUIT` at `main.cpp:213`. -/
def quitAct : SystemAction := ⟨SystemActionType.QUIT, (0, 0)⟩

/-- A lock-size action. -/
def fixAct : SystemAction := ⟨SystemActionType.FIX_SIZE, (0, 0)⟩

/-- An unlock-size action. -/
def freeAct : SystemAction := ⟨SystemActionType.FREE_SIZE, (0, 0)⟩

/-- Example windowed adapter: an 800 by 600 window at position
(100, 100), resizable, vertical sync on, primary monitor mode 1920 by
1080 at 60 Hz — the scenario of the spec. -/
def aEx : Adapter := ⟨false, 100, 100, 800, 600, true, 1, false, 1920, 1080, 60⟩

/-- Example windowed adapter whose window is not resizable. -/
def aNR : Adapter := ⟨false, 100, 100, 800, 600, false, 1, false, 1920, 1080, 60⟩

/-- Example fullscreen adapter on a 1920 by 1080 monitor. -/
def aFS : Adapter := ⟨true, 0, 0, 1920, 1080, true, 1, false, 1920, 1080, 60⟩

/-- A frame larger than what `displayBackend` can grant. -/
def fBig : Frame := ⟨100, 100, 1920, 1080⟩

/-- A clamping backend: positions are granted as asked, sizes are
clamped into a 1280 by 800 usable display area (and kept at least 1). -/
def displayBackend : Backend :=
  ⟨fun x _ => x, fun _ y => y,
   fun w _ => max 1 (min w 1280), fun _ h => max 1 (min h 800)⟩

/-- The controller's frame agrees with the adapter's reported geometry
whenever the window is not fullscreen. -/
def Synced (st : Adapter × Frame) : Prop :=
  st.1.fullscreen = false → st.2 = readFrame st.1

theorem performAction_synced (bk : Backend) (act : SystemAction) (a : Adapter) (f : Frame)
    (h : Synced (a, f)) : Synced (performAction bk act a f) := by
  cases act with
  | mk t d =>
    cases t with
    | FULLSCREEN =>
      by_cases hfs : a.fullscreen <;>
        simp [performAction, Synced, hfs, glfwSetWindowMonitorNull,
          glfwSetWindowMonitorPrimary, glfwSwapInterval, readFrame]
    | RESIZE =>
      simp [performAction, Synced, glfwSetWindowSize, readFrame]
    | FIX_SIZE =>
      intro hfs
      simp only [performAction, glfwSwapInterval, glfwSetWindowAttribResizable] at hfs ⊢
      exact h hfs
    | FREE_SIZE =>
      intro hfs
      simp only [performAction, glfwSwapInterval, glfwSetWindowAttribResizable] at hfs ⊢
      exact h hfs
    | QUIT =>
      intro hfs
      simp only [performAction, glfwSetWindowShouldClose] at hfs ⊢
      exact h hfs
    | NONE =>
      exact h

theorem applySeq_synced (bk : Backend) (acts : List SystemAction) (st : Adapter × Frame)
    (h : Synced st) : Synced (applySeq bk acts st) := by
  induction acts generalizing st with
  | nil => exact h
  | cons act rest ih =>
    exact ih (performAction bk act st.1 st.2) (performAction_synced bk act st.1 st.2 h)

theorem double_toggle_of_synced (bk : Backend) (a : Adapter) (f : Frame)
    (hbk : FaithfulBackend bk) (hfs : a.fullscreen = false) (hsync : f = readFrame a) :
    (performAction bk fsAct (performAction bk fsAct a f).1 (performAction bk fsAct a f).2).2
      = f := by
  obtain ⟨hpx, hpy, hsw, hsh⟩ := hbk
  subst hsync
  simp [performAction, fsAct, hfs, glfwSetWindowMonitorPrimary, glfwSwapInterval,
    glfwSetWindowMonitorNull, readFrame, hpx, hpy, hsw, hsh]

/-- C1: from any state reachable by a sequence of session actions from
an initial state whose frame was read from the adapter, if the window is
not fullscreen and the backend faithfully reports the geometry it was
asked to set, applying `FULLSCREEN` twice in succession returns the
frame to its value before the first toggle. -/
theorem fullscreen_double_toggle_restores_frame (bk : Backend) (a0 : Adapter)
    (acts : List SystemAction) (hbk : FaithfulBackend bk)
    (hfs : (applySeq bk acts (a0, readFrame a0)).1.fullscreen = false) :
    (performAction bk fsAct
      (performAction bk fsAct
        (applySeq bk acts (a0, readFrame a0)).1
        (applySeq bk acts (a0, readFrame a0)).2).1
      (performAction bk fsAct
        (applySeq bk acts (a0, readFrame a0)).1
        (applySeq bk acts (a0, readFrame a0)).2).2).2
    = (applySeq bk acts (a0, readFrame a0)).2 := by
  have hsync : Synced (applySeq bk acts (a0, readFrame a0)) :=
    applySeq_synced bk acts (a0, readFrame a0) (fun _ => rfl)
  exact double_toggle_of_synced bk _ _ hbk hfs (hsync hfs)

/-- Witness for C1: the spec scenario — an 800 by 600 window at
(100, 100) toggled to fullscreen and back recovers its geometry. -/
theorem fullscreen_double_toggle_restores_frame_witness :
    (performAction idBackend fsAct
      (performAction idBackend fsAct aEx (readFrame aEx)).1
      (performAction idBackend fsAct aEx (readFrame aEx)).2).2
    = readFrame aEx :=
  fullscreen_double_toggle_restores_frame idBackend aEx []
    ⟨fun _ _ => rfl, fun _ _ => rfl, fun _ _ => rfl, fun _ _ => rfl⟩ rfl

/-- A backend only ever reports positive window sizes. -/
def PosBackend (bk : Backend) : Prop :=
  ∀ w h, 0 < bk.clampSizeW w h ∧ 0 < bk.clampSizeH w h

/-- The adapter reports a positive window size and a positive primary
video mode. -/
def AdapterPos (a : Adapter) : Prop :=
  0 < a.sizeW ∧ 0 < a.sizeH ∧ 0 < a.modeW ∧ 0 < a.modeH

/-- The frame records a positive width and height. -/
def FramePos (f : Frame) : Prop :=
  0 < f.w ∧ 0 < f.h

theorem performAction_pos (bk : Backend) (act : SystemAction) (a : Adapter) (f : Frame)
    (hbk : PosBackend bk) (ha : AdapterPos a) (hf : FramePos f) :
    AdapterPos (performAction bk act a f).1 ∧ FramePos (performAction bk act a f).2 := by
  obtain ⟨hw, hh, hmw, hmh⟩ := ha
  obtain ⟨hfw, hfh⟩ := hf
  cases act with
  | mk t d =>
    cases t with
    | FULLSCREEN =>
      by_cases hfs : a.fullscreen <;>
        simp [performAction, AdapterPos, FramePos, hfs, glfwSetWindowMonitorNull,
          glfwSetWindowMonitorPrimary, glfwSwapInterval, readFrame, hw, hh, hmw, hmh,
          (hbk f.w f.h).1, (hbk f.w f.h).2]
    | RESIZE =>
      simp [performAction, AdapterPos, FramePos, glfwSetWindowSize, readFrame,
        hmw, hmh, (hbk d.1 d.2).1, (hbk d.1 d.2).2]
    | FIX_SIZE =>
      simp [performAction, AdapterPos, FramePos, glfwSwapInterval,
        glfwSetWindowAttribResizable, hw, hh, hmw, hmh, hfw, hfh]
    | FREE_SIZE =>
      simp [performAction, AdapterPos, FramePos, glfwSwapInterval,
        glfwSetWindowAttribResizable, hw, hh, hmw, hmh, hfw, hfh]
    | QUIT =>
      simp [performAction, AdapterPos, FramePos, glfwSetWindowShouldClose,
        hw, hh, hmw, hmh, hfw, hfh]
    | NONE =>
      simp [performAction, AdapterPos, FramePos, hw, hh, hmw, hmh, hfw, hfh]

theorem applySeq_pos (bk : Backend) (acts : List SystemAction) (st : Adapter × Frame)
    (hbk : PosBackend bk) (h : AdapterPos st.1 ∧ FramePos st.2) :
    AdapterPos (applySeq bk acts st).1 ∧ FramePos (applySeq bk acts st).2 := by
  induction acts generalizing st with
  | nil => exact h
  | cons act rest ih =>
    exact ih (performAction bk act st.1 st.2)
      (performAction_pos bk act st.1 st.2 hbk h.1 h.2)

/-- C2: starting from the initial state whose frame is read from the
adapter at startup (`main.cpp:196-198`), every sequence of session
actions leaves the frame with positive width and height, provided the
backend only reports positive sizes and the initial adapter state is
positive. -/
theorem frame_size_positive (bk : Backend) (a0 : Adapter) (acts : List SystemAction)
    (hbk : PosBackend bk) (ha : AdapterPos a0) :
    0 < (applySeq bk acts (a0, readFrame a0)).2.w ∧
    0 < (applySeq bk acts (a0, readFrame a0)).2.h := by
  have h := applySeq_pos bk acts (a0, readFrame a0) hbk
    ⟨ha, ⟨ha.1, ha.2.1⟩⟩
  exact h.2

/-- Witness for C2: the clamping display backend and the 800 by 600
example window, after a fullscreen toggle, an oversized resize request
and a quit. -/
theorem frame_size_positive_witness :
    0 < (applySeq displayBackend
          [fsAct, fsAct, ⟨SystemActionType.RESIZE, (1920, 1080)⟩, quitAct]
          (aEx, readFrame aEx)).2.w ∧
    0 < (applySeq displayBackend
          [fsAct, fsAct, ⟨SystemActionType.RESIZE, (1920, 1080)⟩, quitAct]
          (aEx, readFrame aEx)).2.h :=
  frame_size_positive displayBackend aEx
    [fsAct, fsAct, ⟨SystemActionType.RESIZE, (1920, 1080)⟩, quitAct]
    (fun w h => ⟨lt_max_iff.mpr (Or.inl one_pos), lt_max_iff.mpr (Or.inl one_pos)⟩)
    (by constructor <;> simp [aEx])

theorem performAction_shouldClose_of_ne_quit (bk : Backend) (act : SystemAction)
    (a : Adapter) (f : Frame) (h : act.type ≠ SystemActionType.QUIT) :
    (performAction bk act a f).1.shouldClose = a.shouldClose := by
  cases act with
  | mk t d =>
    cases t with
    | FULLSCREEN =>
      by_cases hfs : a.fullscreen <;>
        simp [performAction, hfs, glfwSetWindowMonitorNull, glfwSetWindowMonitorPrimary,
          glfwSwapInterval]
    | RESIZE => simp [performAction, glfwSetWindowSize]
    | FIX_SIZE => simp [performAction, glfwSwapInterval, glfwSetWindowAttribResizable]
    | FREE_SIZE => simp [performAction, glfwSwapInterval, glfwSetWindowAttribResizable]
    | QUIT => exact absurd rfl h
    | NONE => simp [performAction]

theorem performAction_shouldClose_of_quit (bk : Backend) (act : SystemAction)
    (a : Adapter) (f : Frame) (h : act.type = SystemActionType.QUIT) :
    (performAction bk act a f).1.shouldClose = true := by
  cases act with
  | mk t d =>
    cases h
    simp [performAction, glfwSetWindowShouldClose]

theorem mainLoop_closed (bk : Backend) (script : List SystemAction) (a : Adapter) (f : Frame)
    (h : a.shouldClose = true) : (mainLoop bk script a f).1 = [] := by
  cases script with
  | nil => rfl
  | cons act rest => simp [mainLoop, h]

/-- C3: if the renderer's action script issues its first `QUIT` after
`pre`, the loop presents exactly `pre.length + 1` frames — the tick that
returned `QUIT` completes its own swap — and draws no further frame: the
close flag is only observed by the loop condition of the next
iteration. -/
theorem quit_one_more_swap (bk : Backend) (a : Adapter) (f : Frame)
    (pre post : List SystemAction) (q : SystemAction)
    (hq : q.type = SystemActionType.QUIT)
    (hpre : ∀ act ∈ pre, act.type ≠ SystemActionType.QUIT)
    (h : a.shouldClose = false) :
    (mainLoop bk (pre ++ q :: post) a f).1.count Ev.swap = pre.length + 1 ∧
    (mainLoop bk (pre ++ q :: post) a f).1.count Ev.draw = pre.length + 1 := by
  induction pre generalizing a f with
  | nil =>
    have hclose := performAction_shouldClose_of_quit bk q a f hq
    simp only [List.nil_append, mainLoop, h, Bool.false_eq_true, if_false]
    rw [mainLoop_closed bk post _ _ hclose]
    simp [tickTrace]
  | cons p ps ih =>
    have hp := performAction_shouldClose_of_ne_quit bk p a f (hpre p (List.mem_cons_self p ps))
    have hrest := ih (performAction bk p a f).1 (performAction bk p a f).2
      (fun act hm => hpre act (List.mem_cons_of_mem p hm)) (hp.trans h)
    simp only [List.cons_append, mainLoop, h, Bool.false_eq_true, if_false]
    simp only [List.count_append, hrest.1, hrest.2, List.length_cons]
    constructor <;> simp [tickTrace] <;> omega

/-- Witness for C3: a one-tick prelude followed by `QUIT` and a further
scripted action yields exactly two swaps and two draws. -/
theorem quit_one_more_swap_witness :
    (mainLoop idBackend [noneAct, quitAct, noneAct] aEx (readFrame aEx)).1.count Ev.swap = 2 ∧
    (mainLoop idBackend [noneAct, quitAct, noneAct] aEx (readFrame aEx)).1.count Ev.draw = 2 :=
  quit_one_more_swap idBackend aEx (readFrame aEx) [noneAct] [noneAct] quitAct rfl
    (by decide) rfl

/-- C4: a `RESIZE(w, h)` action requests size `w` by `h` from the
adapter and then overwrites all four frame components with the position
and size the adapter actually reports; when the backend clamps the
request, the frame records the clamped actual size, not the requested
one. -/
theorem resize_refreshes_frame (bk : Backend) (a : Adapter) (f : Frame) (w h : Int) :
    (performAction bk ⟨SystemActionType.RESIZE, (w, h)⟩ a f).2
      = readFrame (performAction bk ⟨SystemActionType.RESIZE, (w, h)⟩ a f).1 ∧
    (performAction bk ⟨SystemActionType.RESIZE, (w, h)⟩ a f).1.sizeW = bk.clampSizeW w h ∧
    (performAction bk ⟨SystemActionType.RESIZE, (w, h)⟩ a f).1.sizeH = bk.clampSizeH w h ∧
    (performAction bk ⟨SystemActionType.RESIZE, (w, h)⟩ a f).2.w = bk.clampSizeW w h ∧
    (performAction bk ⟨SystemActionType.RESIZE, (w, h)⟩ a f).2.h = bk.clampSizeH w h ∧
    (bk.clampSizeW w h ≠ w →
      (performAction bk ⟨SystemActionType.RESIZE, (w, h)⟩ a f).2.w ≠ w) := by
  refine ⟨rfl, rfl, rfl, rfl, rfl, fun hcl => ?_⟩
  simpa [performAction, glfwSetWindowSize, readFrame] using hcl

/-- Witness for C4: the spec scenario — `RESIZE(1920, 1080)` on a
display whose usable area is 1280 by 800 leaves the frame with the
clamped size 1280 by 800, not the requested one. -/
theorem resize_refreshes_frame_witness :
    (performAction displayBackend ⟨SystemActionType.RESIZE, (1920, 1080)⟩ aEx
       (readFrame aEx)).2.w ≠ 1920 ∧
    (performAction displayBackend ⟨SystemActionType.RESIZE, (1920, 1080)⟩ aEx
       (readFrame aEx)).2.w = 1280 :=
  ⟨(resize_refreshes_frame displayBackend aEx (readFrame aEx) 1920 1080).2.2.2.2.2
      (by decide),
   by decide⟩

/-- Counterexample to C5 as stated: from an adapter whose window is not
resizable, `LOCK_SIZE` then `UNLOCK_SIZE` ends with the resizable
attribute `true`, not its original value. -/
theorem lock_unlock_restores_cex :
    ¬ ((performAction idBackend freeAct
          (performAction idBackend fixAct aNR (readFrame aNR)).1
          (performAction idBackend fixAct aNR (readFrame aNR)).2).1.swapInterval = 1 ∧
       (performAction idBackend freeAct
          (performAction idBackend fixAct aNR (readFrame aNR)).1
          (performAction idBackend fixAct aNR (readFrame aNR)).2).1.resizable
         = aNR.resizable) := by
  decide

/-- C5 amended: `LOCK_SIZE` followed by `UNLOCK_SIZE` leaves the
vertical-sync swap interval at 1 and the resizable attribute at `true`;
the latter equals its value before `LOCK_SIZE` exactly when the window
was resizable beforehand. -/
theorem lock_unlock_restores (bk : Backend) (a : Adapter) (f : Frame) :
    (performAction bk freeAct
       (performAction bk fixAct a f).1 (performAction bk fixAct a f).2).1.swapInterval = 1 ∧
    (performAction bk freeAct
       (performAction bk fixAct a f).1 (performAction bk fixAct a f).2).1.resizable = true ∧
    (a.resizable = true →
      (performAction bk freeAct
         (performAction bk fixAct a f).1 (performAction bk fixAct a f).2).1.resizable
        = a.resizable) := by
  refine ⟨rfl, rfl, fun hr => ?_⟩
  simp [performAction, fixAct, freeAct, glfwSwapInterval, glfwSetWindowAttribResizable, hr]

/-- Witness for C5: on the resizable example window, `LOCK_SIZE` then
`UNLOCK_SIZE` restores both the swap interval and the resizable
attribute. -/
theorem lock_unlock_restores_witness :
    (performAction idBackend freeAct
       (performAction idBackend fixAct aEx (readFrame aEx)).1
       (performAction idBackend fixAct aEx (readFrame aEx)).2).1.swapInterval = 1 ∧
    (performAction idBackend freeAct
       (performAction idBackend fixAct aEx (readFrame aEx)).1
       (performAction idBackend fixAct aEx (readFrame aEx)).2).1.resizable
      = aEx.resizable :=
  ⟨(lock_unlock_restores idBackend aEx (readFrame aEx)).1,
   (lock_unlock_restores idBackend aEx (readFrame aEx)).2.2 rfl⟩

/-- Counterexample to C6 as stated: on a clamping backend, applying
`FULLSCREEN` to an already-fullscreen window mutates the frame — the
re-read after the restore (`main.cpp:55-56`) is a third mutation point,
neither the backup read before entering fullscreen nor the refresh after
a resize request. -/
theorem frame_mutation_points_cex :
    (performAction displayBackend fsAct aFS fBig).2 ≠ fBig ∧
    aFS.fullscreen = true ∧
    fsAct.type ≠ SystemActionType.RESIZE := by
  decide

/-- C6 amended: the frame is mutated only by three adapter read-backs,
each taken while the window is in its normal (non-fullscreen) state: the
backup read immediately before entering fullscreen, the refresh read
immediately after the restore when leaving fullscreen, and the refresh
read immediately after a resize request; `FIX_SIZE`, `FREE_SIZE`,
`QUIT` and `NONE` leave the frame unchanged. -/
theorem frame_mutation_points (bk : Backend) (a : Adapter) (f : Frame) (w h : Int) :
    (performAction bk fixAct a f).2 = f ∧
    (performAction bk freeAct a f).2 = f ∧
    (performAction bk quitAct a f).2 = f ∧
    (performAction bk noneAct a f).2 = f ∧
    (a.fullscreen = false → (performAction bk fsAct a f).2 = readFrame a) ∧
    (a.fullscreen = true →
      (performAction bk fsAct a f).2
        = readFrame (glfwSetWindowMonitorNull bk a f.x f.y f.w f.h)) ∧
    (performAction bk ⟨SystemActionType.RESIZE, (w, h)⟩ a f).2
      = readFrame (glfwSetWindowSize bk a w h) := by
  refine ⟨rfl, rfl, rfl, rfl, fun hfs => ?_, fun hfs => ?_, rfl⟩ <;>
    simp [performAction, fsAct, hfs, glfwSetWindowMonitorNull,
      glfwSetWindowMonitorPrimary, glfwSwapInterval, readFrame]

/-- Witness for C6: the backup read on entering fullscreen from the
example window, and the restore refresh read on leaving fullscreen on
the clamping backend. -/
theorem frame_mutation_points_witness :
    (performAction idBackend fsAct aEx (readFrame aEx)).2 = readFrame aEx ∧
    (performAction displayBackend fsAct aFS fBig).2
      = readFrame (glfwSetWindowMonitorNull displayBackend aFS fBig.x fBig.y fBig.w fBig.h) :=
  ⟨(frame_mutation_points idBackend aEx (readFrame aEx) 0 0).2.2.2.2.1 rfl,
   (frame_mutation_points displayBackend aFS fBig 0 0).2.2.2.2.2.1 rfl⟩

/-- C7: the process exit code is 0 on success and on help or version
display, 2 on backend initialization or window creation failure, and the
distinct non-zero code -1 on graphics-context or extension failure; all
fatal startup failures return without reaching the display loop. -/
theorem exit_codes (fl : StartupFlags) :
    (fl.glfwInitOk = false → mainStartup fl = (2, false)) ∧
    (fl.glfwInitOk = true → fl.showHelp = true → mainStartup fl = (0, false)) ∧
    (fl.glfwInitOk = true → fl.showHelp = false → fl.showVersion = true →
      mainStartup fl = (0, false)) ∧
    (fl.glfwInitOk = true → fl.showHelp = false → fl.showVersion = false →
      fl.windowCreated = false → mainStartup fl = (2, false)) ∧
    (fl.glfwInitOk = true → fl.showHelp = false → fl.showVersion = false →
      fl.windowCreated = true → (fl.gl3wInitFailed = true ∨ fl.gl32Supported = false) →
      mainStartup fl = (-1, false) ∧ (-1 : Int) ≠ 2 ∧ (-1 : Int) ≠ 0) ∧
    (fl.glfwInitOk = true → fl.showHelp = false → fl.showVersion = false →
      fl.windowCreated = true → fl.gl3wInitFailed = false → fl.gl32Supported = true →
      mainStartup fl = (0, true)) := by
  obtain ⟨g, sh, sv, wc, g3, gs⟩ := fl
  cases g <;> cases sh <;> cases sv <;> cases wc <;> cases g3 <;> cases gs <;>
    simp [mainStartup]

/-- Witness for C7: a run where the OpenGL loader fails exits with the
distinct code -1 without reaching the loop. -/
theorem exit_codes_witness :
    mainStartup ⟨true, false, false, true, true, true⟩ = (-1, false) ∧
    (-1 : Int) ≠ 2 ∧ (-1 : Int) ≠ 0 :=
  (exit_codes ⟨true, false, false, true, true, true⟩).2.2.2.2.1
    rfl rfl rfl rfl (Or.inl rfl)

/-- C8: if direct-export setup fails at startup, the `QUIT` applied
before the loop (`main.cpp:209-215`) makes the loop body execute zero
iterations — its trace is empty, so zero draws — while the renderer's
`clean()` and the context teardown still run. -/
theorem direct_export_failure_clean_quit (bk : Backend) (a0 : Adapter)
    (directRecord recordOk cfgFullscreen : Bool) (script : List SystemAction)
    (hd : directRecord = true) (hr : recordOk = false) :
    (runSession bk a0 directRecord recordOk cfgFullscreen script).trace = [] ∧
    (runSession bk a0 directRecord recordOk cfgFullscreen script).trace.count Ev.draw = 0 ∧
    (runSession bk a0 directRecord recordOk cfgFullscreen script).cleanRan = true ∧
    (runSession bk a0 directRecord recordOk cfgFullscreen script).windowDestroyed = true ∧
    (runSession bk a0 directRecord recordOk cfgFullscreen script).glfwTerminated = true := by
  subst hd hr
  have hq := performAction_shouldClose_of_quit bk ⟨SystemActionType.QUIT, (0, 0)⟩
    a0 (readFrame a0) rfl
  have htrace :
      (runSession bk a0 true false cfgFullscreen script).trace = [] := by
    cases hcf : cfgFullscreen with
    | false =>
      simp only [runSession, Bool.not_false, Bool.and_true, if_true, Bool.false_eq_true,
        if_false]
      exact mainLoop_closed bk script _ _ hq
    | true =>
      have hfsq := performAction_shouldClose_of_ne_quit bk
        ⟨SystemActionType.FULLSCREEN, (0, 0)⟩
        (performAction bk ⟨SystemActionType.QUIT, (0, 0)⟩ a0 (readFrame a0)).1
        (performAction bk ⟨SystemActionType.QUIT, (0, 0)⟩ a0 (readFrame a0)).2
        (by decide)
      simp only [runSession, Bool.not_false, Bool.and_true, if_true]
      exact mainLoop_closed bk script _ _ (hfsq.trans hq)

  exact ⟨htrace, by rw [htrace]; rfl, rfl, rfl, rfl⟩

/-- Witness for C8: a failed direct export with a scripted action and
the fullscreen flag set still yields an empty loop trace and full
cleanup. -/
theorem direct_export_failure_clean_quit_witness :
    (runSession idBackend aEx true false true [noneAct]).trace = [] ∧
    (runSession idBackend aEx true false true [noneAct]).trace.count Ev.draw = 0 ∧
    (runSession idBackend aEx true false true [noneAct]).cleanRan = true ∧
    (runSession idBackend aEx true false true [noneAct]).windowDestroyed = true ∧
    (runSession idBackend aEx true false true [noneAct]).glfwTerminated = true :=
  direct_export_failure_clean_quit idBackend aEx true false true [noneAct] rfl rfl

/-- Counterexample to C9 as stated: in the single executed tick of this
run, the poll event sits at index 4 of the tick's trace and the draw at
index 0, so events are not polled before the draw within the tick —
`glfwPollEvents` ends the loop body (`main.cpp:240`) while
`renderer.draw` starts it (`main.cpp:228`). -/
theorem poll_before_draw_cex :
    (mainLoop idBackend [noneAct] aEx (readFrame aEx)).1 = tickTrace ∧
    tickTrace.indexOf Ev.draw = 0 ∧
    tickTrace.indexOf Ev.poll = 4 ∧
    ¬ tickTrace.indexOf Ev.poll < tickTrace.indexOf Ev.draw := by
  decide

/-- C9 amended: every executed tick emits the events draw, action
dispatch, interface render, swap, poll, in that order — the loop trace
is a concatenation of copies of `tickTrace`, and within each tick the
draw precedes the poll, so the events polled in a tick are consumed by
the following tick's draw. -/
theorem loop_trace_shape (bk : Backend) (script : List SystemAction) (a : Adapter)
    (f : Frame) :
    (∃ n, (mainLoop bk script a f).1 = List.flatten (List.replicate n tickTrace)) ∧
    tickTrace.indexOf Ev.draw < tickTrace.indexOf Ev.poll := by
  refine ⟨?_, by decide⟩
  induction script generalizing a f with
  | nil => exact ⟨0, rfl⟩
  | cons act rest ih =>
    by_cases h : a.shouldClose
    · exact ⟨0, by simp [mainLoop, h]⟩
    · obtain ⟨n, hn⟩ := ih (performAction bk act a f).1 (performAction bk act a f).2
      refine ⟨n + 1, ?_⟩
      simp only [mainLoop, h, Bool.false_eq_true, if_false, List.replicate_succ,
        List.flatten_cons]
      rw [hn]

/-- C10: `LOCK_SIZE` followed by `FULLSCREEN` leaves the swap interval
at 1 — the toggle unconditionally re-asserts vertical sync in both
directions (`main.cpp:67-68`), overriding the uncapped interval 0 set
for capture — while the window stays non-resizable. -/
theorem lock_then_fullscreen_swap_interval (bk : Backend) (a : Adapter) (f : Frame) :
    (performAction bk fsAct
       (performAction bk fixAct a f).1 (performAction bk fixAct a f).2).1.swapInterval = 1 ∧
    (performAction bk fsAct
       (performAction bk fixAct a f).1 (performAction bk fixAct a f).2).1.resizable = false ∧
    (performAction bk fixAct a f).1.swapInterval = 0 := by
  by_cases h : a.fullscreen <;>
    simp [performAction, fixAct, fsAct, glfwSwapInterval, glfwSetWindowAttribResizable,
      glfwSetWindowMonitorNull, glfwSetWindowMonitorPrimary, h]
